import Mathlib

/-!
Shallow embedding of the GL rendering backend of the slint repository
(`sixtyfps_runtime/rendering_backends/gl/lib.rs`) and of the winit backend
selection (`internal/backends/winit/lib.rs`), together with proofs about the
rendering-primitive builder, the frame compositor, the context-ownership
phase discipline and the backend fallback logic.

Geometry coordinates (`f32` in the source) are modelled as rationals `ℚ`;
GPU buffers (`GLArrayBuffer`, `GLIndexBuffer`) are modelled as the lists of
elements they contain; a Rust `panic!`/`unwrap` failure is modelled by an
`Option` result being `none`.
-/

namespace Slint

/-- A vertex with a two-component position, mirroring
`struct Vertex { _pos: [f32; 2] }`. -/
structure Vertex where
  x : ℚ
  y : ℚ
  deriving DecidableEq, Repr

/-- A rectangle given by its origin and size, mirroring `lyon::path::math::Rect`
(used both for destination rectangles in logical coordinates and for texel
rectangles inside an atlas texture). -/
structure Rect where
  x : ℚ
  y : ℚ
  width : ℚ
  height : ℚ
  deriving DecidableEq, Repr

/-- `Rect::min_x` of lyon: the origin's x coordinate. -/
def Rect.min_x (r : Rect) : ℚ := r.x

/-- `Rect::max_x` of lyon: origin x plus width. -/
def Rect.max_x (r : Rect) : ℚ := r.x + r.width

/-- `Rect::min_y` of lyon: the origin's y coordinate. -/
def Rect.min_y (r : Rect) : ℚ := r.y

/-- `Rect::max_y` of lyon: origin y plus height. -/
def Rect.max_y (r : Rect) : ℚ := r.y + r.height

/-- A handle to a GPU texture object (`GLTexture` of the `texture` module);
only its identity matters for the claims. -/
structure GLTexture where
  id : Nat
  deriving DecidableEq, Repr

/-- Modelled from the spec: the `texture` module (not under `src/`) hands out
atlas sub-textures consisting of a backing texture handle, the texel
rectangle of the allocation, and the normalized UV coordinates of that
rectangle as six UV pairs forming two triangles (§4.1 of the spec). -/
structure SubTexture where
  texture : GLTexture
  texture_coordinates : Rect
  normalized_coordinates : List Vertex
  deriving DecidableEq, Repr

/-- Modelled from the spec: an atlas allocation record returned by
`TextureAtlas::allocate_image_in_atlas` (§4.1); it wraps a `SubTexture`. -/
structure AtlasAllocation where
  sub_texture : SubTexture
  deriving DecidableEq, Repr

/-- Modelled from the spec: a laid-out glyph as produced by
`GLFont::layout_glyphs` in the `text` module (not under `src/`): an atlas
allocation for the rasterized glyph plus its advance metric (§4.2). -/
structure Glyph where
  glyph_allocation : AtlasAllocation
  advance : ℚ
  deriving DecidableEq, Repr

/-- An RGBA color, with `as_rgba_f32` modelled below; `Color` lives in
`sixtyfps_corelib` (not under `src/`). -/
structure Color where
  red : ℚ
  green : ℚ
  blue : ℚ
  alpha : ℚ
  deriving DecidableEq, Repr

/-- Modelled from the spec: `Color::as_rgba_f32` returns the four channels
as a `(r, g, b, a)` tuple. -/
def Color.as_rgba_f32 (c : Color) : ℚ × ℚ × ℚ × ℚ := (c.red, c.green, c.blue, c.alpha)

/-- `FillStyle` of `sixtyfps_corelib::graphics`: the only variant is a solid
color (the `match style` in `render_primitive` is exhaustive with this one
arm). -/
inductive FillStyle where
  | SolidColor (color : Color)
  deriving DecidableEq, Repr

/-- One glyph sub-run of a text primitive, mirroring `struct GlyphRun`:
vertex buffer, UV buffer, the atlas texture and the vertex count (`i32`). -/
structure GlyphRun where
  vertices : List Vertex
  texture_vertices : List Vertex
  texture : GLTexture
  vertex_count : Int
  deriving DecidableEq, Repr

/-- The rendering primitive sum type, mirroring `enum GLRenderingPrimitive`. -/
inductive GLRenderingPrimitive where
  | FillPath (vertices : List Vertex) (indices : List Nat) (style : FillStyle)
  | Texture (vertices : List Vertex) (texture_vertices : List Vertex) (texture : GLTexture)
  | GlyphRuns (glyph_runs : List GlyphRun) (color : Color)
  deriving DecidableEq, Repr

/-- `create_image_primitive` of `GLRenderingPrimitivesBuilder`: builds the
six quad vertices `[v1, v2, v3, v1, v3, v4]` from the destination rectangle
and pairs them with the normalized UV coordinates and texture of the atlas
allocation. The allocation returned by `allocate_image_in_atlas` (in the
`texture` module, not under `src/`) is passed as a parameter. -/
def create_image_primitive (dest_rect : Rect) (atlas_allocation : AtlasAllocation) :
    GLRenderingPrimitive :=
  let vertex1 : Vertex := ⟨dest_rect.min_x, dest_rect.min_y⟩
  let vertex2 : Vertex := ⟨dest_rect.max_x, dest_rect.min_y⟩
  let vertex3 : Vertex := ⟨dest_rect.max_x, dest_rect.max_y⟩
  let vertex4 : Vertex := ⟨dest_rect.min_x, dest_rect.max_y⟩
  GLRenderingPrimitive.Texture
    [vertex1, vertex2, vertex3, vertex1, vertex3, vertex4]
    atlas_allocation.sub_texture.normalized_coordinates
    atlas_allocation.sub_texture.texture

/-- The body of the `for glyph in font.layout_glyphs(glyphs)` loop of
`create_glyphs`, with the running horizontal offset `x` as accumulator.
Returns the accumulated glyph vertex buffer, the accumulated UV buffer and
the `texture` option, which the loop overwrites on every iteration (so that
it finally holds the last glyph's texture, or `none` if there was no glyph). -/
def create_glyphs_loop : ℚ → List Glyph → List Vertex × List Vertex × Option GLTexture
  | _, [] => ([], [], none)
  | x, glyph :: rest =>
    let glyph_width := glyph.glyph_allocation.sub_texture.texture_coordinates.width
    let glyph_height := glyph.glyph_allocation.sub_texture.texture_coordinates.height
    let vertex1 : Vertex := ⟨x, 0⟩
    let vertex2 : Vertex := ⟨x + glyph_width, 0⟩
    let vertex3 : Vertex := ⟨x + glyph_width, glyph_height⟩
    let vertex4 : Vertex := ⟨x, glyph_height⟩
    let r := create_glyphs_loop (x + glyph.advance) rest
    ([vertex1, vertex2, vertex3, vertex1, vertex3, vertex4] ++ r.1,
     glyph.glyph_allocation.sub_texture.normalized_coordinates ++ r.2.1,
     some (r.2.2.getD glyph.glyph_allocation.sub_texture.texture))

/-- `create_glyphs` of `GLRenderingPrimitivesBuilder`, applied to the glyph
sequence obtained from `string_to_glyphs`/`layout_glyphs`: runs the layout
loop starting at `x = 0` and wraps the result in a single `GlyphRun` whose
texture is `texture.unwrap()`. The `unwrap` of a `None` texture — which
happens exactly when the glyph sequence is empty — is a panic, modelled as
`none`. -/
def create_glyphs (glyphs : List Glyph) (color : Color) : Option GLRenderingPrimitive :=
  let r := create_glyphs_loop 0 glyphs
  match r.2.2 with
  | none => none
  | some tex =>
    some (GLRenderingPrimitive.GlyphRuns
      [⟨r.1, r.2.1, tex, (r.1.length : Int)⟩] color)

/-- Modelled from the spec: `GLFont::string_to_glyphs` followed by
`layout_glyphs` (the `text` module is not under `src/`) shapes a string into
a sequence of glyphs, one per character in logical left-to-right order
(§4.2); in particular the empty string yields the empty glyph sequence. The
per-character glyph (atlas allocation and advance) is font-dependent and
kept abstract as `glyphOf`. -/
def glyphsOfString (glyphOf : Char → Glyph) (text : String) : List Glyph :=
  text.toList.map glyphOf

/-- The quad emitted for one glyph whose quad starts at horizontal offset
`x` and has texel size `w × h`: the vertex order of the source is
`[v1, v2, v3, v1, v3, v4]` with `v1 = (x,0)`, `v2 = (x+w,0)`,
`v3 = (x+w,h)`, `v4 = (x,h)`. -/
def glyphQuad (x w h : ℚ) : List Vertex :=
  [⟨x, 0⟩, ⟨x + w, 0⟩, ⟨x + w, h⟩, ⟨x, 0⟩, ⟨x + w, h⟩, ⟨x, h⟩]

/-- The texel width of a glyph's atlas allocation. -/
def Glyph.texelWidth (g : Glyph) : ℚ :=
  g.glyph_allocation.sub_texture.texture_coordinates.width

/-- The texel height of a glyph's atlas allocation. -/
def Glyph.texelHeight (g : Glyph) : ℚ :=
  g.glyph_allocation.sub_texture.texture_coordinates.height

/-- Sum of the advance metrics of a glyph sequence. -/
def advanceSum (gs : List Glyph) : ℚ := (gs.map Glyph.advance).sum

/-- A four-component column vector, mirroring `cgmath::Vector4<f32>`. -/
structure Vec4 where
  x : ℚ
  y : ℚ
  z : ℚ
  w : ℚ
  deriving DecidableEq, Repr

/-- A 4×4 matrix stored as its four columns `x, y, z, w`, mirroring
`cgmath::Matrix4<f32>`. -/
structure Matrix4 where
  x : Vec4
  y : Vec4
  z : Vec4
  w : Vec4
  deriving DecidableEq, Repr

/-- Matrix–vector product as implemented by cgmath (columns `x..w`, so the
i-th component of the result sums column components with index i). -/
def Matrix4.mulVec (m : Matrix4) (v : Vec4) : Vec4 :=
  ⟨m.x.x * v.x + m.y.x * v.y + m.z.x * v.z + m.w.x * v.w,
   m.x.y * v.x + m.y.y * v.y + m.z.y * v.z + m.w.y * v.w,
   m.x.z * v.x + m.y.z * v.y + m.z.z * v.z + m.w.z * v.w,
   m.x.w * v.x + m.y.w * v.y + m.z.w * v.z + m.w.w * v.w⟩

/-- Matrix product `a * b` as implemented by cgmath: column j of the result
is `a` applied to column j of `b`. -/
def Matrix4.mul (a b : Matrix4) : Matrix4 :=
  ⟨a.mulVec b.x, a.mulVec b.y, a.mulVec b.z, a.mulVec b.w⟩

/-- `Matrix4` as a Mathlib matrix (row index first), used to relate
`Matrix4.mul` to the mathematical matrix product. -/
def Matrix4.toFun (m : Matrix4) : Matrix (Fin 4) (Fin 4) ℚ :=
  !![m.x.x, m.y.x, m.z.x, m.w.x;
     m.x.y, m.y.y, m.z.y, m.w.y;
     m.x.z, m.y.z, m.z.z, m.w.z;
     m.x.w, m.y.w, m.z.w, m.w.w]

/-- The 16-element array serialization of a matrix in `render_primitive`
(lines `matrix.x[0] .. matrix.w[3]` of the source): the four columns in
order, each as its four components — i.e. column-major order. -/
def glMatrix (m : Matrix4) : List ℚ :=
  [m.x.x, m.x.y, m.x.z, m.x.w,
   m.y.x, m.y.y, m.y.z, m.y.w,
   m.z.x, m.z.y, m.z.z, m.z.w,
   m.w.x, m.w.y, m.w.z, m.w.w]

/-- The columns of a matrix, in order. -/
def columnList (m : Matrix4) : List Vec4 := [m.x, m.y, m.z, m.w]

/-- The components of a vector, in order. -/
def componentList (v : Vec4) : List ℚ := [v.x, v.y, v.z, v.w]

/-- `cgmath::ortho(left, right, bottom, top, near, far)`: the orthographic
projection matrix, column by column. -/
def cgmath_ortho (left right bottom top near far : ℚ) : Matrix4 :=
  ⟨⟨2 / (right - left), 0, 0, 0⟩,
   ⟨0, 2 / (top - bottom), 0, 0⟩,
   ⟨0, 0, -2 / (far - near), 0⟩,
   ⟨-(right + left) / (right - left), -(top + bottom) / (top - bottom),
    -(far + near) / (far - near), 1⟩⟩

/-- `glow::TRIANGLES` (0x0004). -/
def GL_TRIANGLES : Nat := 4

/-- `glow::TRIANGLE_STRIP` (0x0005). -/
def GL_TRIANGLE_STRIP : Nat := 5

/-- `glow::UNSIGNED_SHORT` (0x1403). -/
def GL_UNSIGNED_SHORT : Nat := 5123

/-- `glow::BLEND` (0x0BE2). -/
def GL_BLEND : Nat := 3042

/-- `glow::ONE` (the source blend factor of `blend_func`). -/
def GL_ONE : Nat := 1

/-- `glow::ONE_MINUS_SRC_ALPHA` (0x0303, the destination blend factor). -/
def GL_ONE_MINUS_SRC_ALPHA : Nat := 771

/-- `glow::COLOR_BUFFER_BIT` (0x4000). -/
def GL_COLOR_BUFFER_BIT : Nat := 16384

/-- The observable GL calls issued by `render_primitive`, with the data each
shader `bind` receives (matrix uniform, color uniform, texture, vertex and
UV buffers). -/
inductive GLCommand where
  | bindPathShader (matrix : List ℚ) (color : List ℚ)
      (vertices : List Vertex) (indices : List Nat)
  | bindImageShader (matrix : List ℚ) (texture : GLTexture)
      (vertices : List Vertex) (texture_vertices : List Vertex)
  | bindGlyphShader (matrix : List ℚ) (color : List ℚ) (texture : GLTexture)
      (vertices : List Vertex) (texture_vertices : List Vertex)
  | drawElements (mode : Nat) (count : Int) (elementType : Nat) (offset : Nat)
  | drawArrays (mode : Nat) (first : Int) (count : Int)
  deriving DecidableEq, Repr

/-- Whether a GL command is a draw call (as opposed to a shader bind). -/
def isDrawCall : GLCommand → Bool
  | .drawElements _ _ _ _ => true
  | .drawArrays _ _ _ => true
  | _ => false

/-- The matrix uniform a command binds, if it is a shader bind. -/
def boundMatrixOf : GLCommand → Option (List ℚ)
  | .bindPathShader m _ _ _ => some m
  | .bindImageShader m _ _ _ => some m
  | .bindGlyphShader m _ _ _ _ => some m
  | _ => none

/-- The per-frame state of `GLFrame` relevant to drawing: the stored
projection matrix `root_matrix` (the shaders and context handles are
identityless clones shared with the renderer). -/
structure GLFrame where
  root_matrix : Matrix4
  deriving DecidableEq, Repr

/-- The two GL calls of one iteration of the `for ... in glyph_runs` loop of
`render_primitive`: bind the glyph shader with the matrix, color and this
run's texture and buffers, then draw `vertex_count` vertices as triangles. -/
def glyphRunCommands (gl_matrix : List ℚ) (color : List ℚ) (run : GlyphRun) :
    List GLCommand :=
  [GLCommand.bindGlyphShader gl_matrix color run.texture run.vertices run.texture_vertices,
   GLCommand.drawArrays GL_TRIANGLES 0 run.vertex_count]

/-- `render_primitive` of `GLFrame`: composes `root_matrix * transform`,
serializes it column-major (`glMatrix`) and dispatches on the primitive
variant, returning the trace of GL calls together with the (unchanged)
frame state. -/
def render_primitive (frame : GLFrame) (primitive : GLRenderingPrimitive)
    (transform : Matrix4) : List GLCommand × GLFrame :=
  let matrix := frame.root_matrix.mul transform
  let gl_matrix := glMatrix matrix
  match primitive with
  | .FillPath vertices indices style =>
    match style with
    | .SolidColor color =>
      let c := color.as_rgba_f32
      ([GLCommand.bindPathShader gl_matrix [c.1, c.2.1, c.2.2.1, c.2.2.2] vertices indices,
        GLCommand.drawElements GL_TRIANGLE_STRIP (indices.length : Int) GL_UNSIGNED_SHORT 0],
       frame)
  | .Texture vertices texture_vertices texture =>
    ([GLCommand.bindImageShader gl_matrix texture vertices texture_vertices,
      GLCommand.drawArrays GL_TRIANGLES 0 6],
     frame)
  | .GlyphRuns glyph_runs color =>
    let c := color.as_rgba_f32
    ((glyph_runs.map (glyphRunCommands gl_matrix [c.1, c.2.1, c.2.2.1, c.2.2.2])).flatten,
     frame)

/-- The observable context/GL calls issued by `new_frame` before it returns
the frame object. -/
inductive ContextCommand where
  | makeContextCurrent
  | viewport (x y width height : Int)
  | enable (cap : Nat)
  | blendFunc (src dst : Nat)
  | clearColor (r g b a : ℚ)
  | clear (mask : Nat)
  deriving DecidableEq, Repr

/-- `new_frame` of `GLRenderer`: makes the windowed context current, sets
the viewport, enables blending with `blend_func(ONE, ONE_MINUS_SRC_ALPHA)`,
clears the color buffer to the clear color, and returns a `GLFrame` whose
`root_matrix` is `cgmath::ortho(0, width, height, 0, -1, 1)`. -/
def new_frame (width height : Nat) (clear_color : Color) :
    List ContextCommand × GLFrame :=
  let c := clear_color.as_rgba_f32
  ([ContextCommand.makeContextCurrent,
    ContextCommand.viewport 0 0 (width : Int) (height : Int),
    ContextCommand.enable GL_BLEND,
    ContextCommand.blendFunc GL_ONE GL_ONE_MINUS_SRC_ALPHA,
    ContextCommand.clearColor c.1 c.2.1 c.2.2.1 c.2.2.2,
    ContextCommand.clear GL_COLOR_BUFFER_BIT],
   ⟨cgmath_ortho 0 (width : ℚ) (height : ℚ) 0 (-1) 1⟩)

/-- Who currently holds the windowed GPU context, as tracked by the
`Option`/move discipline of the source (non-wasm targets): the renderer's
`windowed_context: Option<WindowedContext<NotCurrent>>` slot, a live
`GLRenderingPrimitivesBuilder` (which owns a `WindowedContext<PossiblyCurrent>`
by value), or a live `GLFrame`. -/
structure PhaseState where
  renderer_slot : Bool
  builder_slot : Bool
  frame_slot : Bool
  deriving DecidableEq, Repr, Fintype

/-- The four context-transferring operations of `impl GraphicsBackend for
GLRenderer`. -/
inductive PhaseOp where
  | new_rendering_primitives_builder
  | finish_primitives
  | new_frame
  | present_frame
  deriving DecidableEq, Repr, Fintype

/-- One phase transition. `new_rendering_primitives_builder` and `new_frame`
execute `self.windowed_context.take().unwrap().make_current()`: they require
the renderer slot to be occupied (otherwise the `unwrap` of `None` panics,
modelled as `none`) and move the context into the new builder/frame.
`finish_primitives` and `present_frame` consume the builder/frame by value
(so one must exist) and store the made-not-current context back into the
renderer slot. -/
def phaseStep : PhaseOp → PhaseState → Option PhaseState
  | .new_rendering_primitives_builder, s =>
    if s.renderer_slot then some ⟨false, true, s.frame_slot⟩ else none
  | .finish_primitives, s =>
    if s.builder_slot then some ⟨true, false, s.frame_slot⟩ else none
  | .new_frame, s =>
    if s.renderer_slot then some ⟨false, s.builder_slot, true⟩ else none
  | .present_frame, s =>
    if s.frame_slot then some ⟨true, s.builder_slot, false⟩ else none

/-- The state established by `GLRenderer::new`: the renderer holds the
(not-current) windowed context, no builder or frame exists. -/
def initialPhaseState : PhaseState := ⟨true, false, false⟩

/-- How many of the three parties hold the context. -/
def ownerCount (s : PhaseState) : Nat :=
  (if s.renderer_slot then 1 else 0) + (if s.builder_slot then 1 else 0)
    + (if s.frame_slot then 1 else 0)

/-- The single-owner invariant: exactly one of renderer, builder, frame
holds the context. -/
def singleOwner (s : PhaseState) : Prop := ownerCount s = 1

instance (s : PhaseState) : Decidable (singleOwner s) := by
  unfold singleOwner; infer_instance

/-- Run a sequence of phase transitions; `none` if any step panics. -/
def runPhaseOps : List PhaseOp → PhaseState → Option PhaseState
  | [], s => some s
  | op :: ops, s =>
    match phaseStep op s with
    | none => none
    | some t => runPhaseOps ops t

/-- The window factory chosen by `Backend::new` of the winit backend: the
FemtoVG GL renderer or the Skia renderer (both renderer features enabled;
with `renderer-femtovg` on, the default factory is the FemtoVG one). -/
inductive WindowFactory where
  | femtovg
  | skia
  deriving DecidableEq, Repr

/-- The winit `Backend` struct: it stores the chosen window factory. -/
structure Backend where
  window_factory_fn : WindowFactory
  deriving DecidableEq, Repr

/-- The default renderer name used in the fallback warning message. -/
def default_renderer_name : String := "FemtoVG"

/-- The default window factory (`renderer-femtovg` feature enabled). -/
def default_renderer_factory : WindowFactory := WindowFactory.femtovg

/-- `Backend::new(renderer_name)`: matches the renderer name against the
known names (`"gl" | "femtovg"`, then `"skia"`, then `None`, then any other
`Some(name)`); an unrecognized name prints a warning via `eprintln!`
(returned here as the list of emitted stderr lines) and falls back to the
default factory. The function is total: it always returns a backend. -/
def Backend.new (renderer_name : Option String) : Backend × List String :=
  match renderer_name with
  | some name =>
    if name = "gl" ∨ name = "femtovg" then (⟨WindowFactory.femtovg⟩, [])
    else if name = "skia" then (⟨WindowFactory.skia⟩, [])
    else
      (⟨default_renderer_factory⟩,
       ["slint winit: unrecognized renderer " ++ name ++ ", falling back to "
          ++ default_renderer_name])
  | none => (⟨default_renderer_factory⟩, [])

/-- The top-left corner of a rectangle, in the spec's top-left-origin,
Y-down coordinate space. -/
def Rect.topLeft (r : Rect) : Vertex := ⟨r.x, r.y⟩

/-- The top-right corner of a rectangle. -/
def Rect.topRight (r : Rect) : Vertex := ⟨r.x + r.width, r.y⟩

/-- The bottom-right corner of a rectangle. -/
def Rect.bottomRight (r : Rect) : Vertex := ⟨r.x + r.width, r.y + r.height⟩

/-- The bottom-left corner of a rectangle. -/
def Rect.bottomLeft (r : Rect) : Vertex := ⟨r.x, r.y + r.height⟩

/-- Twice the signed area of the triangle `(p, q, r)`; two triangles are
consistently wound when their signed areas have the same sign. -/
def triArea2 (p q r : Vertex) : ℚ :=
  (q.x - p.x) * (r.y - p.y) - (q.y - p.y) * (r.x - p.x)

/-- Concrete sample data used by the witness theorems. -/
def sampleTexture : GLTexture := ⟨7⟩

/-- A second sample atlas texture, distinct from `sampleTexture`. -/
def sampleTexture2 : GLTexture := ⟨8⟩

/-- A sample 8×10 texel rectangle at the atlas origin. -/
def sampleRect : Rect := ⟨0, 0, 8, 10⟩

/-- Sample normalized UV coordinates (six pairs forming two triangles). -/
def sampleUV : List Vertex := [⟨0, 0⟩, ⟨1, 0⟩, ⟨1, 1⟩, ⟨0, 0⟩, ⟨1, 1⟩, ⟨0, 1⟩]

/-- A sample sub-texture in `sampleTexture`. -/
def sampleSubTexture : SubTexture := ⟨sampleTexture, sampleRect, sampleUV⟩

/-- A sample sub-texture in `sampleTexture2` with a 5×10 texel rectangle. -/
def sampleSubTexture2 : SubTexture := ⟨sampleTexture2, ⟨8, 0, 5, 10⟩, sampleUV⟩

/-- A sample atlas allocation. -/
def sampleAllocation : AtlasAllocation := ⟨sampleSubTexture⟩

/-- A sample glyph in `sampleTexture` with advance 9. -/
def sampleGlyphA : Glyph := ⟨⟨sampleSubTexture⟩, 9⟩

/-- A sample glyph in `sampleTexture2` with advance 6. -/
def sampleGlyphB : Glyph := ⟨⟨sampleSubTexture2⟩, 6⟩

/-- A sample opaque red color. -/
def sampleColor : Color := ⟨1, 0, 0, 1⟩

/-- Unfolding of the glyph-layout loop on a cons cell: the quad for the head
glyph at offset `x` followed by the rest of the buffer, laid out from
`x + advance`. -/
theorem create_glyphs_loop_fst_cons (x : ℚ) (g : Glyph) (gs : List Glyph) :
    (create_glyphs_loop x (g :: gs)).1
      = glyphQuad x g.texelWidth g.texelHeight ++ (create_glyphs_loop (x + g.advance) gs).1 := rfl

/-- Unfolding of the glyph-layout loop's UV buffer on a cons cell. -/
theorem create_glyphs_loop_uv_cons (x : ℚ) (g : Glyph) (gs : List Glyph) :
    (create_glyphs_loop x (g :: gs)).2.1
      = g.glyph_allocation.sub_texture.normalized_coordinates
          ++ (create_glyphs_loop (x + g.advance) gs).2.1 := rfl

/-- Unfolding of the glyph-layout loop's texture slot on a cons cell. -/
theorem create_glyphs_loop_texture_cons (x : ℚ) (g : Glyph) (gs : List Glyph) :
    (create_glyphs_loop x (g :: gs)).2.2
      = some ((create_glyphs_loop (x + g.advance) gs).2.2.getD
          g.glyph_allocation.sub_texture.texture) := rfl

/-- The quad for glyph `i` sits at positions `6*i .. 6*i+5` of the loop's
vertex buffer and starts at `x` plus the sum of the earlier advances. -/
theorem create_glyphs_loop_quad (gs : List Glyph) (x : ℚ) (i : Nat) (h : i < gs.length) :
    ((create_glyphs_loop x gs).1.drop (6 * i)).take 6
      = glyphQuad (x + advanceSum (gs.take i)) (gs.get ⟨i, h⟩).texelWidth
          (gs.get ⟨i, h⟩).texelHeight := by
  induction gs generalizing x i with
  | nil => exact absurd h (by simp)
  | cons g gs ih =>
    rw [create_glyphs_loop_fst_cons]
    cases i with
    | zero =>
      simp only [Nat.mul_zero, List.drop_zero]
      rw [show (6 : Nat) = (glyphQuad x g.texelWidth g.texelHeight).length from rfl,
        List.take_left]
      simp [advanceSum]
    | succ i =>
      have h' : i < gs.length := Nat.lt_of_succ_lt_succ h
      have h6 : 6 * (i + 1) = (glyphQuad x g.texelWidth g.texelHeight).length + 6 * i := by
        simp only [glyphQuad, List.length_cons, List.length_nil]
        omega
      rw [h6, List.drop_append, ih (x + g.advance) i h']
      simp [advanceSum, add_assoc]

/-- The texture slot of the loop holds the last glyph's atlas texture. -/
theorem create_glyphs_loop_texture (gs : List Glyph) (x : ℚ) (h : gs ≠ []) :
    (create_glyphs_loop x gs).2.2
      = some ((gs.getLast h).glyph_allocation.sub_texture.texture) := by
  induction gs generalizing x with
  | nil => exact absurd rfl h
  | cons g gs ih =>
    rw [create_glyphs_loop_texture_cons]
    cases gs with
    | nil => rfl
    | cons g2 gs2 =>
      rw [ih (x + g.advance) (by simp)]
      simp [List.getLast_cons]

/-- The single-step preservation of the single-owner invariant, checked by
enumeration of the finite state space. -/
theorem phaseStep_preserves : ∀ (op : PhaseOp) (s t : PhaseState),
    singleOwner s → phaseStep op s = some t → singleOwner t := by decide

/-- Any successful run of phase transitions preserves the single-owner
invariant. -/
theorem runPhaseOps_singleOwner : ∀ (ops : List PhaseOp) (s t : PhaseState),
    singleOwner s → runPhaseOps ops s = some t → singleOwner t := by
  intro ops
  induction ops with
  | nil =>
    intro s t h1 h2
    simp only [runPhaseOps] at h2
    injection h2 with h
    exact h ▸ h1
  | cons op ops ih =>
    intro s t h1 h2
    simp only [runPhaseOps] at h2
    cases hstep : phaseStep op s with
    | none => simp [hstep] at h2
    | some u =>
      simp only [hstep] at h2
      exact ih u t (phaseStep_preserves op s u h1 hstep) h2

/-- `Matrix4.mul` is the mathematical matrix product. -/
theorem Matrix4.toFun_mul (a b : Matrix4) : (a.mul b).toFun = a.toFun * b.toFun := by
  ext i j
  fin_cases i <;> fin_cases j <;>
    simp [Matrix4.mul, Matrix4.mulVec, Matrix4.toFun, Matrix.mul_apply, Fin.sum_univ_four]

/-- The matrices bound across the glyph-run loop: every sub-run binds the
same composed matrix. -/
theorem glyphRuns_boundMatrices (g c : List ℚ) (runs : List GlyphRun) :
    ((runs.map (glyphRunCommands g c)).flatten).filterMap boundMatrixOf
      = List.replicate runs.length g := by
  induction runs with
  | nil => rfl
  | cons r rs ih => simp [glyphRunCommands, boundMatrixOf, ih, List.replicate_succ]

/-- C1: the claim states that `create_glyphs` succeeds on the empty string
with a degenerate zero-vertex primitive. The code does the opposite: with no
glyphs the loop never runs, the `texture` option stays `None`, and
`texture.unwrap()` panics (modelled as `none`). -/
theorem create_glyphs_empty_string (glyphOf : Char → Glyph) (color : Color) :
    create_glyphs (glyphsOfString glyphOf "") color = none := rfl

/-- C2: exactly one of renderer, builder and frame holds the GPU context:
the invariant holds initially, is preserved by every successful sequence of
phase transitions, the builder/frame-creating operations move the context
out of the renderer slot, and only `finish_primitives` and `present_frame`
return it to the renderer. -/
theorem context_single_owner (ops : List PhaseOp) (s t : PhaseState)
    (h1 : singleOwner s) (h2 : runPhaseOps ops s = some t) :
    singleOwner t
      ∧ singleOwner initialPhaseState
      ∧ phaseStep PhaseOp.new_rendering_primitives_builder initialPhaseState
          = some ⟨false, true, false⟩
      ∧ phaseStep PhaseOp.new_frame initialPhaseState = some ⟨false, false, true⟩
      ∧ phaseStep PhaseOp.finish_primitives ⟨false, true, false⟩ = some initialPhaseState
      ∧ phaseStep PhaseOp.present_frame ⟨false, false, true⟩ = some initialPhaseState
      ∧ (∀ op u v, phaseStep op u = some v →
          u.renderer_slot = false → v.renderer_slot = true →
          op = PhaseOp.finish_primitives ∨ op = PhaseOp.present_frame) :=
  ⟨runPhaseOps_singleOwner ops s t h1 h2, by decide, by decide, by decide, by decide,
   by decide, by decide⟩

/-- Witness for C2: the well-nested sequence builder/finish/frame/present
starting from the initial state succeeds and keeps the invariant. -/
theorem context_single_owner_witness :
    singleOwner initialPhaseState
      ∧ runPhaseOps
          [PhaseOp.new_rendering_primitives_builder, PhaseOp.finish_primitives,
           PhaseOp.new_frame, PhaseOp.present_frame] initialPhaseState
          = some initialPhaseState
      ∧ (singleOwner initialPhaseState
          ∧ singleOwner initialPhaseState
          ∧ phaseStep PhaseOp.new_rendering_primitives_builder initialPhaseState
              = some ⟨false, true, false⟩
          ∧ phaseStep PhaseOp.new_frame initialPhaseState = some ⟨false, false, true⟩
          ∧ phaseStep PhaseOp.finish_primitives ⟨false, true, false⟩ = some initialPhaseState
          ∧ phaseStep PhaseOp.present_frame ⟨false, false, true⟩ = some initialPhaseState
          ∧ (∀ op u v, phaseStep op u = some v →
              u.renderer_slot = false → v.renderer_slot = true →
              op = PhaseOp.finish_primitives ∨ op = PhaseOp.present_frame)) :=
  ⟨by decide, by decide,
   context_single_owner
     [PhaseOp.new_rendering_primitives_builder, PhaseOp.finish_primitives,
      PhaseOp.new_frame, PhaseOp.present_frame]
     initialPhaseState initialPhaseState (by decide) (by decide)⟩

/-- C3: drawing a `FillPath` primitive binds the path shader with the solid
color of the fill style (and the composed matrix and the primitive's
buffers) and issues exactly one indexed draw call, with mode
`TRIANGLE_STRIP` and element count the length of the index buffer. -/
theorem render_fill_path_draw (frame : GLFrame) (transform : Matrix4)
    (vertices : List Vertex) (indices : List Nat) (color : Color) :
    ((render_primitive frame
          (GLRenderingPrimitive.FillPath vertices indices (FillStyle.SolidColor color))
          transform).1
        = [GLCommand.bindPathShader (glMatrix (frame.root_matrix.mul transform))
             [color.red, color.green, color.blue, color.alpha] vertices indices,
           GLCommand.drawElements GL_TRIANGLE_STRIP (indices.length : Int)
             GL_UNSIGNED_SHORT 0])
      ∧ ((render_primitive frame
            (GLRenderingPrimitive.FillPath vertices indices (FillStyle.SolidColor color))
            transform).1.filter isDrawCall
          = [GLCommand.drawElements GL_TRIANGLE_STRIP (indices.length : Int)
              GL_UNSIGNED_SHORT 0]) :=
  ⟨rfl, rfl⟩

/-- C4: `create_image_primitive` emits exactly the six corner vertices of
the destination rectangle in the order top-left, top-right, bottom-right,
top-left, bottom-right, bottom-left — two consistently wound triangles (both
signed areas are positive for a non-degenerate rectangle) — and the UV
buffer is exactly the normalized coordinates of the atlas allocation. -/
theorem create_image_primitive_quad (dest_rect : Rect) (atlas_allocation : AtlasAllocation)
    (hw : 0 < dest_rect.width) (hh : 0 < dest_rect.height) :
    create_image_primitive dest_rect atlas_allocation
        = GLRenderingPrimitive.Texture
            [dest_rect.topLeft, dest_rect.topRight, dest_rect.bottomRight,
             dest_rect.topLeft, dest_rect.bottomRight, dest_rect.bottomLeft]
            atlas_allocation.sub_texture.normalized_coordinates
            atlas_allocation.sub_texture.texture
      ∧ 0 < triArea2 dest_rect.topLeft dest_rect.topRight dest_rect.bottomRight
      ∧ 0 < triArea2 dest_rect.topLeft dest_rect.bottomRight dest_rect.bottomLeft := by
  refine ⟨rfl, ?_, ?_⟩ <;>
    · simp only [triArea2, Rect.topLeft, Rect.topRight, Rect.bottomRight, Rect.bottomLeft]
      nlinarith

/-- Witness for C4 at the rectangle with origin (0,0) and size 10×10. -/
theorem create_image_primitive_quad_witness :
    0 < (Rect.mk 0 0 10 10).width ∧ 0 < (Rect.mk 0 0 10 10).height
      ∧ (create_image_primitive (Rect.mk 0 0 10 10) sampleAllocation
            = GLRenderingPrimitive.Texture
                [(Rect.mk 0 0 10 10).topLeft, (Rect.mk 0 0 10 10).topRight,
                 (Rect.mk 0 0 10 10).bottomRight, (Rect.mk 0 0 10 10).topLeft,
                 (Rect.mk 0 0 10 10).bottomRight, (Rect.mk 0 0 10 10).bottomLeft]
                sampleAllocation.sub_texture.normalized_coordinates
                sampleAllocation.sub_texture.texture
          ∧ 0 < triArea2 (Rect.mk 0 0 10 10).topLeft (Rect.mk 0 0 10 10).topRight
              (Rect.mk 0 0 10 10).bottomRight
          ∧ 0 < triArea2 (Rect.mk 0 0 10 10).topLeft (Rect.mk 0 0 10 10).bottomRight
              (Rect.mk 0 0 10 10).bottomLeft) :=
  ⟨by decide, by decide,
   create_image_primitive_quad (Rect.mk 0 0 10 10) sampleAllocation (by decide) (by decide)⟩

/-- C5: text layout is deterministic and monotonic: starting from `x = 0`,
glyph `i`'s quad occupies positions `6*i .. 6*i+5` of the vertex buffer, is
`[x,0]..[x+wᵢ,hᵢ]` with `x` the sum of the advances of the glyphs before it,
and placing glyph `i` increases the running offset by exactly its advance. -/
theorem create_glyphs_layout (glyphs : List Glyph) (i : Nat) (h : i < glyphs.length) :
    ((create_glyphs_loop 0 glyphs).1.drop (6 * i)).take 6
        = glyphQuad (advanceSum (glyphs.take i)) (glyphs.get ⟨i, h⟩).texelWidth
            (glyphs.get ⟨i, h⟩).texelHeight
      ∧ advanceSum (glyphs.take (i + 1))
          = advanceSum (glyphs.take i) + (glyphs.get ⟨i, h⟩).advance := by
  constructor
  · have := create_glyphs_loop_quad glyphs 0 i h
    simpa using this
  · have ht : glyphs.take (i + 1) = glyphs.take i ++ [glyphs.get ⟨i, h⟩] := by
      rw [List.take_succ, List.getElem?_eq_getElem h]
      simp
    rw [ht]
    simp only [advanceSum, List.map_append, List.map_cons, List.map_nil, List.sum_append,
      List.sum_cons, List.sum_nil, add_zero, List.get_eq_getElem]

/-- Witness for C5 at a two-glyph run, checking the second glyph's quad. -/
theorem create_glyphs_layout_witness :
    1 < ([sampleGlyphA, sampleGlyphB] : List Glyph).length
      ∧ (((create_glyphs_loop 0 [sampleGlyphA, sampleGlyphB]).1.drop (6 * 1)).take 6
            = glyphQuad (advanceSum ([sampleGlyphA, sampleGlyphB].take 1))
                (([sampleGlyphA, sampleGlyphB] : List Glyph).get ⟨1, by decide⟩).texelWidth
                (([sampleGlyphA, sampleGlyphB] : List Glyph).get ⟨1, by decide⟩).texelHeight
          ∧ advanceSum ([sampleGlyphA, sampleGlyphB].take (1 + 1))
              = advanceSum ([sampleGlyphA, sampleGlyphB].take 1)
                  + (([sampleGlyphA, sampleGlyphB] : List Glyph).get ⟨1, by decide⟩).advance) :=
  ⟨by decide, create_glyphs_layout [sampleGlyphA, sampleGlyphB] 1 (by decide)⟩

/-- C6: for every non-empty glyph sequence, `create_glyphs` returns exactly
one sub-run — built from the loop's accumulated vertex and UV buffers, with
`vertex_count` the vertex-buffer length — whose texture handle is the atlas
texture of the *last* laid-out glyph, whatever textures the other glyphs
were allocated in. -/
theorem create_glyphs_single_run (glyphs : List Glyph) (color : Color) (h : glyphs ≠ []) :
    create_glyphs glyphs color
      = some (GLRenderingPrimitive.GlyphRuns
          [⟨(create_glyphs_loop 0 glyphs).1, (create_glyphs_loop 0 glyphs).2.1,
            (glyphs.getLast h).glyph_allocation.sub_texture.texture,
            ((create_glyphs_loop 0 glyphs).1.length : Int)⟩] color) := by
  simp [create_glyphs, create_glyphs_loop_texture glyphs 0 h]

/-- Witness for C6 at a two-glyph run spanning two different atlas
textures. -/
theorem create_glyphs_single_run_witness :
    ([sampleGlyphA, sampleGlyphB] : List Glyph) ≠ []
      ∧ create_glyphs [sampleGlyphA, sampleGlyphB] sampleColor
          = some (GLRenderingPrimitive.GlyphRuns
              [⟨(create_glyphs_loop 0 [sampleGlyphA, sampleGlyphB]).1,
                (create_glyphs_loop 0 [sampleGlyphA, sampleGlyphB]).2.1,
                (([sampleGlyphA, sampleGlyphB] : List Glyph).getLast
                    (by simp)).glyph_allocation.sub_texture.texture,
                ((create_glyphs_loop 0 [sampleGlyphA, sampleGlyphB]).1.length : Int)⟩]
              sampleColor) :=
  ⟨by simp, create_glyphs_single_run [sampleGlyphA, sampleGlyphB] sampleColor (by simp)⟩

/-- C7: `new_frame` makes the context current, sets the viewport to
`(width, height)`, enables blending with factors `ONE` and
`ONE_MINUS_SRC_ALPHA`, clears the color buffer to the clear color — in this
order — and stores the orthographic projection
`ortho(0, width, height, 0, -1, 1)`, which maps the top-left pixel-space
corner `(0,0)` to NDC `(-1, 1)` and the bottom-right corner
`(width, height)` to NDC `(1, -1)` (top-left-origin, Y-down). -/
theorem new_frame_sequence (width height : Nat) (clear_color : Color)
    (hw : 0 < width) (hh : 0 < height) :
    (new_frame width height clear_color).1
        = [ContextCommand.makeContextCurrent,
           ContextCommand.viewport 0 0 (width : Int) (height : Int),
           ContextCommand.enable GL_BLEND,
           ContextCommand.blendFunc GL_ONE GL_ONE_MINUS_SRC_ALPHA,
           ContextCommand.clearColor clear_color.red clear_color.green clear_color.blue
             clear_color.alpha,
           ContextCommand.clear GL_COLOR_BUFFER_BIT]
      ∧ (new_frame width height clear_color).2.root_matrix
          = cgmath_ortho 0 (width : ℚ) (height : ℚ) 0 (-1) 1
      ∧ (new_frame width height clear_color).2.root_matrix.mulVec ⟨0, 0, 0, 1⟩
          = ⟨-1, 1, 0, 1⟩
      ∧ (new_frame width height clear_color).2.root_matrix.mulVec
            ⟨(width : ℚ), (height : ℚ), 0, 1⟩
          = ⟨1, -1, 0, 1⟩ := by
  have hw' : (width : ℚ) ≠ 0 := by positivity
  have hh' : (height : ℚ) ≠ 0 := by positivity
  refine ⟨rfl, rfl, ?_, ?_⟩ <;>
    · simp only [new_frame, cgmath_ortho, Matrix4.mulVec, Vec4.mk.injEq]
      refine ⟨?_, ?_, ?_, ?_⟩ <;> field_simp [hw', hh'] <;> ring_nf

/-- Witness for C7 at an 800×600 surface with the sample clear color. -/
theorem new_frame_sequence_witness :
    0 < 800 ∧ 0 < 600
      ∧ ((new_frame 800 600 sampleColor).1
            = [ContextCommand.makeContextCurrent,
               ContextCommand.viewport 0 0 (800 : Int) (600 : Int),
               ContextCommand.enable GL_BLEND,
               ContextCommand.blendFunc GL_ONE GL_ONE_MINUS_SRC_ALPHA,
               ContextCommand.clearColor sampleColor.red sampleColor.green sampleColor.blue
                 sampleColor.alpha,
               ContextCommand.clear GL_COLOR_BUFFER_BIT]
          ∧ (new_frame 800 600 sampleColor).2.root_matrix
              = cgmath_ortho 0 (800 : ℚ) (600 : ℚ) 0 (-1) 1
          ∧ (new_frame 800 600 sampleColor).2.root_matrix.mulVec ⟨0, 0, 0, 1⟩
              = ⟨-1, 1, 0, 1⟩
          ∧ (new_frame 800 600 sampleColor).2.root_matrix.mulVec
                ⟨(800 : ℚ), (600 : ℚ), 0, 1⟩
              = ⟨1, -1, 0, 1⟩) :=
  ⟨by decide, by decide, new_frame_sequence 800 600 sampleColor (by decide) (by decide)⟩

/-- C8: for every primitive and transform, `render_primitive` leaves the
frame (and hence its stored projection) unchanged, every shader bind in its
trace carries the serialization of `root_matrix * transform` (the projection
on the left, `Matrix4.mul` being the mathematical matrix product), and that
serialization lists the columns in order, each by its components —
column-major order. -/
theorem render_primitive_matrix (frame : GLFrame) (primitive : GLRenderingPrimitive)
    (transform : Matrix4) :
    (render_primitive frame primitive transform).2 = frame
      ∧ ((render_primitive frame primitive transform).1.filterMap boundMatrixOf).all
          (fun m => decide (m = glMatrix (frame.root_matrix.mul transform))) = true
      ∧ glMatrix (frame.root_matrix.mul transform)
          = ((columnList (frame.root_matrix.mul transform)).map componentList).flatten
      ∧ (frame.root_matrix.mul transform).toFun
          = frame.root_matrix.toFun * transform.toFun := by
  refine ⟨?_, ?_, rfl, Matrix4.toFun_mul _ _⟩
  · cases primitive with
    | FillPath v idx style => cases style; rfl
    | Texture v tv t => rfl
    | GlyphRuns runs c => rfl
  · cases primitive with
    | FillPath v idx style =>
      cases style with
      | SolidColor c => simp [render_primitive, boundMatrixOf]
    | Texture v tv t => simp [render_primitive, boundMatrixOf]
    | GlyphRuns runs c =>
      simp only [render_primitive, glyphRuns_boundMatrices, List.all_eq_true]
      intro m hm
      have := List.eq_of_mem_replicate hm
      simp [this]

/-- C9: `Backend::new` with an unrecognized, non-`None` renderer name never
fails: it emits exactly one warning line to stderr and returns a backend
whose window factory is the default renderer's factory — the same factory
chosen when no renderer name is given (which warns nothing). -/
theorem backend_new_unsupported (name : String) (h1 : name ≠ "gl")
    (h2 : name ≠ "femtovg") (h3 : name ≠ "skia") :
    Backend.new (some name)
        = (⟨default_renderer_factory⟩,
           ["slint winit: unrecognized renderer " ++ name ++ ", falling back to "
              ++ default_renderer_name])
      ∧ (Backend.new (some name)).1 = (Backend.new none).1
      ∧ (Backend.new none).2 = [] := by
  refine ⟨?_, ?_, rfl⟩ <;> simp [Backend.new, h1, h2, h3]

/-- Witness for C9 at the unrecognized renderer name "foo". -/
theorem backend_new_unsupported_witness :
    ("foo" : String) ≠ "gl" ∧ ("foo" : String) ≠ "femtovg" ∧ ("foo" : String) ≠ "skia"
      ∧ (Backend.new (some "foo")
            = (⟨default_renderer_factory⟩,
               ["slint winit: unrecognized renderer " ++ "foo" ++ ", falling back to "
                  ++ default_renderer_name])
          ∧ (Backend.new (some "foo")).1 = (Backend.new none).1
          ∧ (Backend.new none).2 = []) :=
  ⟨by decide, by decide, by decide,
   backend_new_unsupported "foo" (by decide) (by decide) (by decide)⟩

/-- C10: on non-wasm targets, calling `new_rendering_primitives_builder` or
`new_frame` while the renderer's windowed-context slot is empty (a builder
or frame is active) panics — the `unwrap` of `None`, modelled as `none` —
rather than returning an error or waiting. -/
theorem phase_entry_panics_without_context (s : PhaseState) (h : s.renderer_slot = false) :
    phaseStep PhaseOp.new_rendering_primitives_builder s = none
      ∧ phaseStep PhaseOp.new_frame s = none := by
  constructor <;> simp [phaseStep, h]

/-- Witness for C10 in the builder-active state. -/
theorem phase_entry_panics_without_context_witness :
    (PhaseState.mk false true false).renderer_slot = false
      ∧ (phaseStep PhaseOp.new_rendering_primitives_builder ⟨false, true, false⟩ = none
          ∧ phaseStep PhaseOp.new_frame ⟨false, true, false⟩ = none) :=
  ⟨rfl, phase_entry_panics_without_context ⟨false, true, false⟩ rfl⟩

end Slint
